import Mathlib

/-!
Verification of the monitoring core of `monitor.py` (Resource-Hub).

Each Python construct relevant to the frozen claims is shallowly embedded:

* `OptimizedMetricStorage` (src/monitor.py:213-254) — the per-metric ring
  buffer over two fixed-size numpy arrays. Arrays are embedded as Lean
  lists of fixed length `max_points`; `np.roll(a, -k)` is `a.drop k ++
  a.take k`; the basic slice `a[:k]` is `a.take k` (numpy slices are
  *views*, which matters for claim C8 and is modelled explicitly there).
* `Settings.load_settings` (src/monitor.py:256-290) — configuration
  loading with shallow dict merge of defaults and loaded values.
* `MonitorApp.get_gpu_usage` / `_get_system_metrics`
  (src/monitor.py:1276-1288, 1449-1471) — the sampler, with each
  fallible OS read an explicit `Except`/environment argument.
* `MonitorApp.check_thresholds` (src/monitor.py:1576-1588, the later
  definition in the class body, which shadows the one at 1301) — the
  threshold alerter over the `notification_cooldown` map.
* `MonitorApp.update_stats` (src/monitor.py:1347-1441) — the monitor
  loop's error counter and adaptive interval, embedded as a step
  function over the possible outcomes of one loop iteration.

Numeric values (percentages, timestamps, intervals) are embedded as `ℚ`.
-/

namespace Monitor

/-! ### Ring buffer: `OptimizedMetricStorage` (src/monitor.py:213-254) -/

/-- State of `OptimizedMetricStorage`: two numpy arrays of length
`max_points`, a write cursor and a filled flag (src/monitor.py:215-222).
Arrays are lists whose length is kept at `max_points`. -/
structure OptimizedMetricStorage where
  max_points : ℕ
  timestamps : List ℚ
  values : List ℚ
  current_index : ℕ
  is_filled : Bool
  deriving Repr, DecidableEq

/-- `np.roll(a, -k)` for `0 ≤ k ≤ len a`: element `i` of the result is
`a[(i + k) % len a]`. -/
def npRoll (a : List ℚ) (k : ℕ) : List ℚ :=
  a.drop k ++ a.take k

/-- The freshly constructed storage: `np.zeros(max_points)` twice,
cursor 0, not filled (src/monitor.py:215-222). -/
def OptimizedMetricStorage.init (max_points : ℕ) : OptimizedMetricStorage :=
  { max_points := max_points
    timestamps := List.replicate max_points 0
    values := List.replicate max_points 0
    current_index := 0
    is_filled := false }

/-- `add_metric(value, timestamp)` (src/monitor.py:224-234): write both
arrays at `current_index`, advance the cursor modulo `max_points`, set
`is_filled` when the cursor wraps to 0. The `timestamp is None` default
branch is not modelled: callers in this development always pass a
timestamp. -/
def OptimizedMetricStorage.add_metric (s : OptimizedMetricStorage)
    (value timestamp : ℚ) : OptimizedMetricStorage :=
  let nextIndex := (s.current_index + 1) % s.max_points
  { s with
    timestamps := s.timestamps.set s.current_index timestamp
    values := s.values.set s.current_index value
    current_index := nextIndex
    is_filled := s.is_filled || decide (nextIndex = 0) }

/-- `get_values()` (src/monitor.py:236-240): the rolled array when
filled, the slice `values[:current_index]` otherwise (contents of the
returned array; the view/copy distinction is modelled separately for
claim C8). -/
def OptimizedMetricStorage.get_values (s : OptimizedMetricStorage) : List ℚ :=
  if s.is_filled then npRoll s.values s.current_index
  else s.values.take s.current_index

/-- `get_timestamps()` (src/monitor.py:242-246). -/
def OptimizedMetricStorage.get_timestamps (s : OptimizedMetricStorage) : List ℚ :=
  if s.is_filled then npRoll s.timestamps s.current_index
  else s.timestamps.take s.current_index

/-- `clear()` (src/monitor.py:248-254): `fill(0)` both arrays (length
preserved), reset cursor and flag. -/
def OptimizedMetricStorage.clear (s : OptimizedMetricStorage) :
    OptimizedMetricStorage :=
  { s with
    timestamps := s.timestamps.map fun _ => 0
    values := s.values.map fun _ => 0
    current_index := 0
    is_filled := false }

/-- One external operation on a storage. -/
inductive StorageOp where
  | add (value timestamp : ℚ)
  | clear
  deriving Repr, DecidableEq

/-- Apply one operation to a storage. -/
def stepOp (s : OptimizedMetricStorage) : StorageOp → OptimizedMetricStorage
  | StorageOp.add v t => s.add_metric v t
  | StorageOp.clear => s.clear

/-- Run a sequence of operations. -/
def runOps (s : OptimizedMetricStorage) (ops : List StorageOp) :
    OptimizedMetricStorage :=
  ops.foldl stepOp s

/-- Reference history: how one operation updates the list of
(value, timestamp) pairs added since the last `clear`. -/
def histStep (acc : List (ℚ × ℚ)) : StorageOp → List (ℚ × ℚ)
  | StorageOp.add v t => acc ++ [(v, t)]
  | StorageOp.clear => []

/-- The (value, timestamp) pairs added since the last `clear`, in call
order. -/
def pairsSinceClear (ops : List StorageOp) : List (ℚ × ℚ) :=
  ops.foldl histStep []

/-! ### Ring buffer invariant -/

theorem take_succ_set {α : Type _} (l : List α) (n : ℕ) (v : α)
    (h : n < l.length) : (l.set n v).take (n + 1) = l.take n ++ [v] := by
  rw [List.set_eq_take_cons_drop v h, List.take_append_eq_append_take]
  simp [List.length_take, Nat.min_eq_left (Nat.le_of_lt h), Nat.le_of_lt h,
    Nat.succ_sub (Nat.le_refl n)]

theorem drop_succ_set {α : Type _} (l : List α) (n : ℕ) (v : α) :
    (l.set n v).drop (n + 1) = l.drop (n + 1) := by
  induction l generalizing n with
  | nil => rfl
  | cons a t ih =>
    cases n with
    | zero => rfl
    | succ m => simpa using ih m

/-- Invariant of one fixed-size array under the shared cursor discipline:
`xs` is the sequence of scalars written so far (since the last clear). -/
def ArrInv (cap : ℕ) (xs : List ℚ) (arr : List ℚ) : Prop :=
  arr.length = cap ∧
  (xs.length < cap → arr.take xs.length = xs) ∧
  (cap ≤ xs.length → npRoll arr (xs.length % cap) = xs.drop (xs.length - cap))

theorem ArrInv.initial (cap : ℕ) : ArrInv cap [] (List.replicate cap 0) := by
  refine ⟨by simp, fun _ => by simp, fun hle => ?_⟩
  have : cap = 0 := Nat.le_zero.mp (by simpa using hle)
  subst this; simp [npRoll]

theorem ArrInv.afterClear (cap : ℕ) (arr : List ℚ) (h : arr.length = cap) :
    ArrInv cap [] (arr.map fun _ => (0 : ℚ)) := by
  refine ⟨by simp [h], fun _ => by simp, fun hle => ?_⟩
  have : cap = 0 := Nat.le_zero.mp (by simpa using hle)
  subst this
  have : arr = [] := List.length_eq_zero.mp h
  subst this; simp [npRoll]

theorem ArrInv.step {cap : ℕ} {xs arr : List ℚ} (h : ArrInv cap xs arr)
    (hcap : 0 < cap) (x : ℚ) :
    ArrInv cap (xs ++ [x]) (arr.set (xs.length % cap) x) := by
  obtain ⟨hlen, hlow, hhigh⟩ := h
  set n := xs.length with hn
  have hmod : n % cap < cap := Nat.mod_lt n hcap
  have hlen' : (arr.set (n % cap) x).length = cap := by simp [hlen]
  refine ⟨hlen', ?_, ?_⟩
  · -- not yet filled: n + 1 < cap
    intro hlt
    have hxs : (xs ++ [x]).length = n + 1 := by simp [hn]
    have hnlt : n < cap := by omega
    have hmodn : n % cap = n := Nat.mod_eq_of_lt hnlt
    rw [hxs, hmodn, take_succ_set arr n x (by omega)]
    rw [hlow hnlt]
  · -- filled: cap ≤ n + 1
    intro hge
    have hxs : (xs ++ [x]).length = n + 1 := by simp [hn]
    rw [hxs]
    by_cases hnlt : n < cap
    · -- exactly fills: n + 1 = cap
      have hcapn : cap = n + 1 := by omega
      have hmodn : n % cap = n := Nat.mod_eq_of_lt hnlt
      have hmod0 : (n + 1) % cap = 0 := by
        rw [hcapn]; exact Nat.mod_self _
      rw [hmod0, hmodn]
      have hset : arr.set n x = arr.take n ++ [x] := by
        rw [List.set_eq_take_cons_drop x (by omega)]
        have : arr.drop (n + 1) = [] := List.drop_eq_nil_of_le (by omega)
        rw [this]
      simp only [npRoll, List.drop_zero, List.take_zero, List.append_nil]
      rw [hset, hlow hnlt]
      have h0 : n + 1 - cap = 0 := by omega
      rw [h0, List.drop_zero]
    · -- already filled: cap ≤ n
      have hcle : cap ≤ n := by omega
      set i := n % cap with hi
      have hq := hhigh hcle
      have hdroplen : (arr.drop i).length = cap - i := by simp [hlen]
      have hdropne : 1 ≤ (arr.drop i).length := by omega
      -- the reference suffix advances by one and gains x
      have hrhs : (xs ++ [x]).drop (n + 1 - cap)
          = arr.drop (i + 1) ++ arr.take i ++ [x] := by
        rw [List.drop_append_eq_append_drop]
        have h1 : n + 1 - cap ≤ n := by omega
        have h2 : n + 1 - cap - xs.length = 0 := by omega
        rw [h2]
        have h3 : xs.drop (n + 1 - cap) = (xs.drop (n - cap)).drop 1 := by
          rw [List.drop_drop]
          congr 1
          omega
        rw [h3, ← hq]
        simp only [npRoll]
        rw [List.drop_append_eq_append_drop]
        have h4 : 1 - (arr.drop i).length = 0 := by omega
        rw [h4, List.drop_drop, List.drop_zero]
        simp
      by_cases hi1 : i + 1 < cap
      · have hmi : (n + 1) % cap = i + 1 := by
          rw [hi, ← Nat.mod_add_mod]
          exact Nat.mod_eq_of_lt hi1
        rw [hmi, hrhs]
        simp only [npRoll]
        rw [drop_succ_set, take_succ_set arr i x (by omega)]
        simp
      · -- the cursor wraps: i + 1 = cap
        have hieq : i + 1 = cap := by omega
        have hmi : (n + 1) % cap = 0 := by
          rw [← Nat.mod_add_mod, ← hi, hieq]
          simp
        rw [hmi, hrhs]
        simp only [npRoll, List.drop_zero, List.take_zero, List.append_nil]
        rw [List.set_eq_take_cons_drop x (by omega)]
        have hdnil : arr.drop (i + 1) = [] := List.drop_eq_nil_of_le (by omega)
        rw [hdnil]
        simp

/-- Storage invariant: the state reachable after the pairs `ps` have been
added since the last clear. -/
def Inv (cap : ℕ) (ps : List (ℚ × ℚ)) (s : OptimizedMetricStorage) : Prop :=
  s.max_points = cap ∧
  s.current_index = ps.length % cap ∧
  (s.is_filled = true ↔ cap ≤ ps.length) ∧
  ArrInv cap (ps.map Prod.fst) s.values ∧
  ArrInv cap (ps.map Prod.snd) s.timestamps

theorem Inv.ofInit (cap : ℕ) (hcap : 0 < cap) :
    Inv cap [] (OptimizedMetricStorage.init cap) := by
  refine ⟨rfl, by simp [OptimizedMetricStorage.init], ?_, ?_, ?_⟩
  · simp [OptimizedMetricStorage.init]; omega
  · exact ArrInv.initial cap
  · exact ArrInv.initial cap

theorem Inv.add {cap : ℕ} {ps : List (ℚ × ℚ)} {s : OptimizedMetricStorage}
    (h : Inv cap ps s) (hcap : 0 < cap) (v t : ℚ) :
    Inv cap (ps ++ [(v, t)]) (s.add_metric v t) := by
  obtain ⟨hmax, hidx, hfill, hval, hts⟩ := h
  have hlenps : (ps ++ [(v, t)]).length = ps.length + 1 := by simp
  refine ⟨hmax, ?_, ?_, ?_, ?_⟩
  · show (s.current_index + 1) % s.max_points = _
    rw [hmax, hidx, hlenps, Nat.mod_add_mod]
  · show (s.is_filled || decide ((s.current_index + 1) % s.max_points = 0)) = true ↔ _
    rw [hmax, hidx, Nat.mod_add_mod, hlenps]
    rcases Nat.lt_or_ge ps.length cap with hlt | hge
    · have hf : s.is_filled = false := by
        cases hb : s.is_filled
        · rfl
        · exact absurd (hfill.mp hb) (by omega)
      rw [hf]
      simp only [Bool.false_or, decide_eq_true_eq]
      constructor
      · intro h0
        rcases Nat.lt_or_ge (ps.length + 1) cap with hlt1 | hge1
        · rw [Nat.mod_eq_of_lt hlt1] at h0; omega
        · exact hge1
      · intro hge1
        have : ps.length + 1 = cap := by omega
        rw [this, Nat.mod_self]
    · have hf : s.is_filled = true := hfill.mpr hge
      rw [hf]
      simp only [Bool.true_or, true_iff]
      omega
  · have := hval.step hcap v
    have hmapfst : (ps ++ [(v, t)]).map Prod.fst = ps.map Prod.fst ++ [v] := by simp
    have hlenmap : (ps.map Prod.fst).length = ps.length := by simp
    rw [hmapfst]
    show ArrInv cap (ps.map Prod.fst ++ [v]) (s.values.set s.current_index v)
    rw [hidx, ← hlenmap]
    exact this
  · have := hts.step hcap t
    have hmapsnd : (ps ++ [(v, t)]).map Prod.snd = ps.map Prod.snd ++ [t] := by simp
    have hlenmap : (ps.map Prod.snd).length = ps.length := by simp
    rw [hmapsnd]
    show ArrInv cap (ps.map Prod.snd ++ [t]) (s.timestamps.set s.current_index t)
    rw [hidx, ← hlenmap]
    exact this

theorem Inv.clear {cap : ℕ} {ps : List (ℚ × ℚ)} {s : OptimizedMetricStorage}
    (h : Inv cap ps s) (hcap : 0 < cap) : Inv cap [] s.clear := by
  obtain ⟨hmax, _, _, hval, hts⟩ := h
  refine ⟨hmax, by simp [OptimizedMetricStorage.clear], ?_, ?_, ?_⟩
  · simp [OptimizedMetricStorage.clear]; omega
  · exact ArrInv.afterClear cap s.values (by simpa using hval.1)
  · exact ArrInv.afterClear cap s.timestamps (by simpa using hts.1)

theorem Inv.run {cap : ℕ} {ps : List (ℚ × ℚ)} {s : OptimizedMetricStorage}
    (h : Inv cap ps s) (hcap : 0 < cap) (ops : List StorageOp) :
    Inv cap (ops.foldl histStep ps) (runOps s ops) := by
  induction ops generalizing ps s with
  | nil => exact h
  | cons op rest ih =>
    cases op with
    | add v t => exact ih (h.add hcap v t)
    | clear => exact ih (h.clear hcap)

/-- The reference value of a reader view: the last `cap` of the history
(all of it when shorter than `cap`). -/
def lastWindow (cap : ℕ) (ps : List (ℚ × ℚ)) : List (ℚ × ℚ) :=
  ps.drop (ps.length - cap)

theorem Inv.get_values_eq {cap : ℕ} {ps : List (ℚ × ℚ)}
    {s : OptimizedMetricStorage} (h : Inv cap ps s) :
    s.get_values = (lastWindow cap ps).map Prod.fst := by
  obtain ⟨hmax, hidx, hfill, hval, _⟩ := h
  obtain ⟨hlen, hlow, hhigh⟩ := hval
  have hlenmap : (ps.map Prod.fst).length = ps.length := by simp
  unfold OptimizedMetricStorage.get_values lastWindow
  rcases Nat.lt_or_ge ps.length cap with hlt | hge
  · have hf : s.is_filled = false := by
      cases hb : s.is_filled
      · rfl
      · exact absurd (hfill.mp hb) (by omega)
    rw [hf]
    simp only [Bool.false_eq_true, if_false]
    rw [hidx, Nat.mod_eq_of_lt hlt]
    have : ps.length - cap = 0 := by omega
    rw [this, List.drop_zero]
    have := hlow (by omega)
    rw [hlenmap] at this
    exact this
  · have hf : s.is_filled = true := hfill.mpr hge
    rw [hf, if_pos rfl, hidx]
    have := hhigh (by omega)
    rw [hlenmap] at this
    rw [this]
    simp

theorem Inv.get_timestamps_eq {cap : ℕ} {ps : List (ℚ × ℚ)}
    {s : OptimizedMetricStorage} (h : Inv cap ps s) :
    s.get_timestamps = (lastWindow cap ps).map Prod.snd := by
  obtain ⟨hmax, hidx, hfill, _, hts⟩ := h
  obtain ⟨hlen, hlow, hhigh⟩ := hts
  have hlenmap : (ps.map Prod.snd).length = ps.length := by simp
  unfold OptimizedMetricStorage.get_timestamps lastWindow
  rcases Nat.lt_or_ge ps.length cap with hlt | hge
  · have hf : s.is_filled = false := by
      cases hb : s.is_filled
      · rfl
      · exact absurd (hfill.mp hb) (by omega)
    rw [hf]
    simp only [Bool.false_eq_true, if_false]
    rw [hidx, Nat.mod_eq_of_lt hlt]
    have : ps.length - cap = 0 := by omega
    rw [this, List.drop_zero]
    have := hlow (by omega)
    rw [hlenmap] at this
    exact this
  · have hf : s.is_filled = true := hfill.mpr hge
    rw [hf, if_pos rfl, hidx]
    have := hhigh (by omega)
    rw [hlenmap] at this
    rw [this]
    simp

/-! ### Claim theorems about the ring buffer -/

/-- A pure sequence of `add_metric` calls as operations. -/
def addsOf (ps : List (ℚ × ℚ)) : List StorageOp :=
  ps.map fun p => StorageOp.add p.1 p.2

theorem histRun_addsOf (ps : List (ℚ × ℚ)) (acc : List (ℚ × ℚ)) :
    (addsOf ps).foldl histStep acc = acc ++ ps := by
  induction ps generalizing acc with
  | nil => simp [addsOf]
  | cons p rest ih =>
    simp only [addsOf, List.map_cons, List.foldl_cons, histStep]
    rw [show (List.map (fun p : ℚ × ℚ => StorageOp.add p.1 p.2) rest) = addsOf rest from rfl]
    rw [ih]
    simp

theorem Inv.afterAdds (cap : ℕ) (hcap : 0 < cap) (ps : List (ℚ × ℚ)) :
    Inv cap ps (runOps (OptimizedMetricStorage.init cap) (addsOf ps)) := by
  have h := (Inv.ofInit cap hcap).run hcap (addsOf ps)
  rwa [histRun_addsOf ps []] at h

/-- C1: starting from the empty buffer with capacity `cap`, after `N`
`add_metric` calls `get_values()` returns the `N` inserted values in
insertion order when `N ≤ cap`, and the last `cap` inserted values in
insertion order (exactly `cap` of them, the oldest `N − cap` evicted)
when `N > cap`. -/
theorem C1_ring_buffer_retention (cap : ℕ) (ps : List (ℚ × ℚ)) (hcap : 0 < cap) :
    (ps.length ≤ cap →
      (runOps (OptimizedMetricStorage.init cap) (addsOf ps)).get_values
        = ps.map Prod.fst) ∧
    (cap < ps.length →
      (runOps (OptimizedMetricStorage.init cap) (addsOf ps)).get_values.length = cap ∧
      (runOps (OptimizedMetricStorage.init cap) (addsOf ps)).get_values
        = (ps.drop (ps.length - cap)).map Prod.fst) := by
  have hinv := Inv.afterAdds cap hcap ps
  have hv := hinv.get_values_eq
  constructor
  · intro hle
    rw [hv]
    unfold lastWindow
    have : ps.length - cap = 0 := by omega
    rw [this, List.drop_zero]
  · intro hgt
    rw [hv]
    unfold lastWindow
    constructor
    · simp
      omega
    · rfl

/-- Witness for C1 at capacity 2: three insertions keep the last two
values in order; one insertion keeps that one value. -/
theorem C1_ring_buffer_retention_witness :
    (runOps (OptimizedMetricStorage.init 2)
        (addsOf [(1, 10), (2, 20), (3, 30)])).get_values = [(2 : ℚ), 3] ∧
    (runOps (OptimizedMetricStorage.init 2)
        (addsOf [(1, 10)])).get_values = [(1 : ℚ)] := by
  constructor
  · have h := (C1_ring_buffer_retention 2 [(1, 10), (2, 20), (3, 30)]
      (by decide)).2 (by decide)
    rw [h.2]
    rfl
  · have h := (C1_ring_buffer_retention 2 [(1, 10)] (by decide)).1 (by decide)
    rw [h]
    rfl

/-- C10: after any sequence of `add_metric` and `clear` operations,
`get_values()` and `get_timestamps()` have equal length, and index for
index they are the value and timestamp components of the same
`add_metric` calls (the last `cap` pairs added since the last clear). -/
theorem C10_value_timestamp_alignment (cap : ℕ) (ops : List StorageOp)
    (hcap : 0 < cap) :
    (runOps (OptimizedMetricStorage.init cap) ops).get_values.length
      = (runOps (OptimizedMetricStorage.init cap) ops).get_timestamps.length ∧
    (runOps (OptimizedMetricStorage.init cap) ops).get_values.zip
        ((runOps (OptimizedMetricStorage.init cap) ops).get_timestamps)
      = lastWindow cap (pairsSinceClear ops) := by
  have hinv := (Inv.ofInit cap hcap).run hcap ops
  have hv := hinv.get_values_eq
  have ht := hinv.get_timestamps_eq
  rw [show ops.foldl histStep [] = pairsSinceClear ops from rfl] at hv ht
  refine ⟨by rw [hv, ht]; simp, ?_⟩
  rw [hv, ht, List.zip_map']
  simp

/-- Witness for C10: capacity 2, an interleaving of adds and a clear;
values and timestamps line up pairwise. -/
theorem C10_value_timestamp_alignment_witness :
    (runOps (OptimizedMetricStorage.init 2)
        [StorageOp.add 1 10, StorageOp.clear, StorageOp.add 2 20,
         StorageOp.add 3 30, StorageOp.add 4 40]).get_values.zip
      ((runOps (OptimizedMetricStorage.init 2)
        [StorageOp.add 1 10, StorageOp.clear, StorageOp.add 2 20,
         StorageOp.add 3 30, StorageOp.add 4 40]).get_timestamps)
      = [((3 : ℚ), (30 : ℚ)), (4, 40)] := by
  have h := (C10_value_timestamp_alignment 2
    [StorageOp.add 1 10, StorageOp.clear, StorageOp.add 2 20,
     StorageOp.add 3 30, StorageOp.add 4 40] (by decide)).2
  rw [h]
  rfl

/-! ### Claim C8: reader views (copy vs numpy view) -/

/-- The object `get_values()` hands to the reader. `np.roll` allocates a
fresh array, so the filled branch returns an independent copy; the basic
slice `self.values[:self.current_index]` (src/monitor.py:240) is a numpy
*view* into the buffer's backing array. -/
inductive ValuesRead where
  | copy (data : List ℚ)
  | view (len : ℕ)
  deriving Repr, DecidableEq

/-- `get_values()` (src/monitor.py:236-240) at the allocation level. -/
def get_values_read (s : OptimizedMetricStorage) : ValuesRead :=
  if s.is_filled then ValuesRead.copy (npRoll s.values s.current_index)
  else ValuesRead.view s.current_index

/-- What a reader holding `r` observes while the buffer's backing
storage is in state `s`: a copy is unaffected by `s`, a view reads
through to the current array. -/
def readNow (s : OptimizedMetricStorage) : ValuesRead → List ℚ
  | ValuesRead.copy d => d
  | ValuesRead.view len => s.values.take len

/-- Sanity: observed at the moment of the call, the allocation-level
model agrees with `get_values`. -/
theorem readNow_get_values_read (s : OptimizedMetricStorage) :
    readNow s (get_values_read s) = s.get_values := by
  unfold readNow get_values_read OptimizedMetricStorage.get_values
  cases s.is_filled <;> simp

/-- C8 counterexample: with capacity 3, after one `add_metric` the
reader is handed a view (`values[:1]`); the reader first observes `[1]`,
but after three more adds the buffer wraps, the writer overwrites slot
0, and the very same returned object now reads `[4]`. -/
theorem C8_view_counterexample :
    readNow ((OptimizedMetricStorage.init 3).add_metric 1 10)
        (get_values_read ((OptimizedMetricStorage.init 3).add_metric 1 10))
      = [(1 : ℚ)] ∧
    readNow (((((OptimizedMetricStorage.init 3).add_metric 1 10).add_metric 2 20).add_metric
          3 30).add_metric 4 40)
        (get_values_read ((OptimizedMetricStorage.init 3).add_metric 1 10))
      = [(4 : ℚ)] ∧
    readNow (((((OptimizedMetricStorage.init 3).add_metric 1 10).add_metric 2 20).add_metric
          3 30).add_metric 4 40)
        (get_values_read ((OptimizedMetricStorage.init 3).add_metric 1 10))
      ≠ readNow ((OptimizedMetricStorage.init 3).add_metric 1 10)
        (get_values_read ((OptimizedMetricStorage.init 3).add_metric 1 10)) := by
  refine ⟨rfl, rfl, ?_⟩
  decide

/-- C8 (amended): once the buffer is filled, `get_values()` goes through
`np.roll`, which allocates a fresh array: whatever the backing storage
later holds (any subsequent `add_metric` calls), the reader's array is
unchanged. -/
theorem C8_filled_read_is_stable (s s' : OptimizedMetricStorage)
    (h : s.is_filled = true) :
    readNow s' (get_values_read s) = s.get_values := by
  simp [readNow, get_values_read, OptimizedMetricStorage.get_values, h]

/-- Witness for the amended C8: a filled capacity-1 buffer; the read is
unchanged by a later write. -/
theorem C8_filled_read_is_stable_witness :
    readNow (((OptimizedMetricStorage.init 1).add_metric 7 5).add_metric 9 6)
        (get_values_read ((OptimizedMetricStorage.init 1).add_metric 7 5))
      = ((OptimizedMetricStorage.init 1).add_metric 7 5).get_values :=
  C8_filled_read_is_stable ((OptimizedMetricStorage.init 1).add_metric 7 5)
    (((OptimizedMetricStorage.init 1).add_metric 7 5).add_metric 9 6) rfl

/-! ### Sampler: `get_gpu_usage` and `_get_system_metrics`
(src/monitor.py:1276-1288, 1449-1471) -/

/-- One GPU object as surfaced by GPUtil: `gpu.load` may be `None`, the
`temperature` attribute may be missing. -/
structure GpuInfo where
  load : Option ℚ
  temperature : Option ℚ
  deriving Repr, DecidableEq

/-- Environment of one GPU read: GPUtil failed to import
(`GPU_AVAILABLE` false, src/monitor.py:53-57), `GPUtil.getGPUs()`
raises, or it returns a list of GPUs. -/
inductive GpuEnv where
  | unavailable
  | raises
  | gpus (l : List GpuInfo)
  deriving Repr, DecidableEq

/-- `get_gpu_usage` (src/monitor.py:1276-1288): `(0, None)` when GPUtil
is absent, on exception, or with an empty GPU list; otherwise the first
GPU's `load * 100` (0 when `load is None`) and its temperature. -/
def get_gpu_usage : GpuEnv → ℚ × Option ℚ
  | GpuEnv.unavailable => (0, none)
  | GpuEnv.raises => (0, none)
  | GpuEnv.gpus [] => (0, none)
  | GpuEnv.gpus (g :: _) =>
      (match g.load with
       | some l => l * 100
       | none => 0,
       g.temperature)

/-- The validation at src/monitor.py:1462-1465: `max(0, min(100, x))`. -/
def clamp (x : ℚ) : ℚ := max 0 (min 100 x)

/-- `_get_system_metrics` (src/monitor.py:1449-1471): the whole body is
one `try`; the CPU and RAM psutil reads can raise (modelled as
`Except`), in which case the function returns `None`; the GPU read is
internally caught by `get_gpu_usage` and never raises. On success the
three percentages are clamped. -/
def get_system_metrics (cpuRead ramRead : Except Unit ℚ) (gpu : GpuEnv) :
    Option (ℚ × ℚ × ℚ) :=
  match cpuRead, ramRead with
  | Except.ok c, Except.ok r =>
      some (clamp c, clamp r, clamp (get_gpu_usage gpu).1)
  | _, _ => none

/-! ### Alerter: `check_thresholds` (src/monitor.py:1576-1588) -/

/-- The three monitored metrics. -/
inductive Metric where
  | cpu
  | ram
  | gpu
  deriving Repr, DecidableEq

/-- Threshold configuration read at evaluation time:
`self.thresholds` and `self.grace_period`. -/
structure AlertConfig where
  thresholds : Metric → ℚ
  grace_period : ℚ

/-- One iteration of the `for resource, value in [...]` loop in
`check_thresholds`: fire when `value > threshold` and
`current_time - cooldown.get(resource, 0) > grace_period`, recording
`cooldown[resource] = current_time` on fire. The state is the list of
fired resources so far and the cooldown dict. -/
def check_step (cfg : AlertConfig) (now : ℚ)
    (st : List Metric × (Metric → Option ℚ)) (p : Metric × ℚ) :
    List Metric × (Metric → Option ℚ) :=
  if p.2 > cfg.thresholds p.1 ∧ now - ((st.2 p.1).getD 0) > cfg.grace_period then
    (st.1 ++ [p.1], Function.update st.2 p.1 (some now))
  else st

/-- `check_thresholds(cpu, ram, gpu)` (src/monitor.py:1576-1588): fold
over `[('cpu', cpu), ('ram', ram), ('gpu', gpu)]`, returning the fired
resources (in order) and the updated `notification_cooldown` dict. -/
def check_thresholds (cfg : AlertConfig) (now : ℚ) (cd : Metric → Option ℚ)
    (cpu ram gpu : ℚ) : List Metric × (Metric → Option ℚ) :=
  [(Metric.cpu, cpu), (Metric.ram, ram), (Metric.gpu, gpu)].foldl
    (check_step cfg now) ([], cd)

/-- The value fed to `check_thresholds` for each resource. -/
def valueOf (cpu ram gpu : ℚ) : Metric → ℚ
  | Metric.cpu => cpu
  | Metric.ram => ram
  | Metric.gpu => gpu

theorem mem_check_thresholds_fst (cfg : AlertConfig) (now : ℚ)
    (cd : Metric → Option ℚ) (cpu ram gpu : ℚ) (m : Metric) :
    m ∈ (check_thresholds cfg now cd cpu ram gpu).1 ↔
      (valueOf cpu ram gpu m > cfg.thresholds m ∧
        now - (cd m).getD 0 > cfg.grace_period) := by
  cases m <;>
    simp only [check_thresholds, List.foldl, check_step, valueOf] <;>
    split_ifs with h1 h2 h3 <;>
    simp_all [Function.update]

theorem check_thresholds_snd (cfg : AlertConfig) (now : ℚ)
    (cd : Metric → Option ℚ) (cpu ram gpu : ℚ) (m : Metric) :
    (check_thresholds cfg now cd cpu ram gpu).2 m =
      if valueOf cpu ram gpu m > cfg.thresholds m ∧
          now - (cd m).getD 0 > cfg.grace_period
      then some now else cd m := by
  cases m <;>
    simp only [check_thresholds, List.foldl, check_step, valueOf] <;>
    split_ifs with h1 h2 h3 <;>
    simp_all [Function.update]

/-- The default alert configuration: thresholds 80 for each metric and a
grace period of 300 seconds (src/monitor.py:259-268). -/
def defaultAlertConfig : AlertConfig :=
  { thresholds := fun _ => 80, grace_period := 300 }

/-- The initial `notification_cooldown` dict is empty
(src/monitor.py:812); `.get(resource, 0)` then yields 0. -/
def initialCooldown : Metric → Option ℚ := fun _ => none

/-- C2 counterexample: with threshold 80 and grace period 300, an
over-threshold CPU sample of 85 at literal time t = 0 does NOT fire (the
fired list is empty), because the never-fired state is represented as
last-fired-at 0 and `0 - 0 > 300` is false — contradicting the claim
that the t = 0 sample fires. -/
theorem C2_time_zero_counterexample :
    (check_thresholds defaultAlertConfig 0 initialCooldown 85 0 0).1 = [] := by
  norm_num [check_thresholds, check_step, defaultAlertConfig, initialCooldown]

/-- C2 (amended): a metric fires iff its value strictly exceeds the
threshold and `now` minus the last-fired time strictly exceeds the grace
period, where a metric that never fired has last-fired time 0 (the dict
default); on firing the last-fired time is set to `now`. Consequently
the fire / no-fire / fire pattern of the spec's scenario holds once the
scenario starts later than one grace period after time 0: samples of 85
at t = 1000, 90 at t = 1100 and 95 at t = 1301 give fire, no fire,
fire. -/
theorem C2_alerter_decision_rule :
    (∀ (cfg : AlertConfig) (now : ℚ) (cd : Metric → Option ℚ)
        (cpu ram gpu : ℚ) (m : Metric),
      m ∈ (check_thresholds cfg now cd cpu ram gpu).1 ↔
        (valueOf cpu ram gpu m > cfg.thresholds m ∧
          now - (cd m).getD 0 > cfg.grace_period)) ∧
    (∀ (cfg : AlertConfig) (now : ℚ) (cd : Metric → Option ℚ)
        (cpu ram gpu : ℚ) (m : Metric),
      (check_thresholds cfg now cd cpu ram gpu).2 m =
        if valueOf cpu ram gpu m > cfg.thresholds m ∧
            now - (cd m).getD 0 > cfg.grace_period
        then some now else cd m) ∧
    ((check_thresholds defaultAlertConfig 1000 initialCooldown 85 0 0).1 = [Metric.cpu] ∧
     (check_thresholds defaultAlertConfig 1100
        (check_thresholds defaultAlertConfig 1000 initialCooldown 85 0 0).2 90 0 0).1 = [] ∧
     (check_thresholds defaultAlertConfig 1301
        (check_thresholds defaultAlertConfig 1100
          (check_thresholds defaultAlertConfig 1000 initialCooldown 85 0 0).2 90 0 0).2
        95 0 0).1 = [Metric.cpu]) := by
  refine ⟨mem_check_thresholds_fst, check_thresholds_snd, ?_, ?_, ?_⟩ <;>
    norm_num [check_thresholds, check_step, defaultAlertConfig, initialCooldown,
      Function.update]

/-- C3 counterexample: a CPU read failure aborts the whole snapshot —
`_get_system_metrics` returns `None` even though the RAM read succeeded
(50) and a GPU was present — contradicting the claim that a failure of
one constituent metric still yields a snapshot with the others. -/
theorem C3_cpu_failure_aborts_snapshot_counterexample :
    get_system_metrics (Except.error ()) (Except.ok 50)
      (GpuEnv.gpus [{ load := some (7 / 10), temperature := none }]) = none := by
  rfl

/-- C3 (amended): only the GPU read is fault-isolated, and it degrades
to 0 rather than null: with CPU and RAM readable, a raising (or absent,
or empty) GPU read still yields a snapshot whose GPU component is 0. A
CPU or RAM read failure aborts the whole snapshot (`None`). Disk and
temperature are not part of the returned snapshot at all. -/
theorem C3_fault_isolation :
    (∀ (c r : ℚ), get_system_metrics (Except.ok c) (Except.ok r) GpuEnv.raises
      = some (clamp c, clamp r, 0)) ∧
    (∀ (c r : ℚ), get_system_metrics (Except.ok c) (Except.ok r) GpuEnv.unavailable
      = some (clamp c, clamp r, 0)) ∧
    (∀ (r : ℚ) (g : GpuEnv), get_system_metrics (Except.error ()) (Except.ok r) g = none) ∧
    (∀ (c : ℚ) (g : GpuEnv), get_system_metrics (Except.ok c) (Except.error ()) g = none) := by
  refine ⟨fun c r => rfl, fun c r => rfl, fun r g => rfl, fun c g => ?_⟩
  cases g <;> rfl

theorem clamp_eq_ite (x : ℚ) :
    clamp x = if x < 0 then 0 else if 100 < x then 100 else x := by
  unfold clamp
  rcases lt_or_le x 0 with h0 | h0
  · rw [if_pos h0, min_eq_right (le_trans h0.le (by norm_num))]
    exact max_eq_left h0.le
  · rw [if_neg (not_lt.mpr h0)]
    rcases lt_or_le 100 x with h1 | h1
    · rw [if_pos h1, min_eq_left h1.le]
      norm_num
    · rw [if_neg (not_lt.mpr h1), min_eq_right h1, max_eq_right h0]

theorem clamp_of_range (y : ℚ) (h0 : 0 ≤ y) (h1 : y ≤ 100) : clamp y = y := by
  rw [clamp_eq_ite, if_neg (not_lt.mpr h0), if_neg (not_lt.mpr h1)]

theorem clamp_nonneg (x : ℚ) : 0 ≤ clamp x := le_max_left 0 _

theorem clamp_le_100 (x : ℚ) : clamp x ≤ 100 :=
  max_le (by norm_num) (min_le_left 100 x)

theorem clamp_idem (x : ℚ) : clamp (clamp x) = clamp x :=
  clamp_of_range (clamp x) (clamp_nonneg x) (clamp_le_100 x)

/-- C6: every percentage stored in a successful snapshot is the raw
reading clamped to [0, 100]: inputs below 0 give 0, above 100 give 100,
in-range inputs pass through, and clamping is idempotent. -/
theorem C6_clamp_law :
    (∀ (c r : ℚ) (g : GpuEnv), get_system_metrics (Except.ok c) (Except.ok r) g
      = some (clamp c, clamp r, clamp (get_gpu_usage g).1)) ∧
    (∀ x : ℚ, clamp x = if x < 0 then 0 else if 100 < x then 100 else x) ∧
    (∀ x : ℚ, clamp (clamp x) = clamp x) :=
  ⟨fun _ _ _ => rfl, clamp_eq_ite, clamp_idem⟩

/-- C7: whenever the GPU reading is unavailable (GPUtil absent, the GPU
read raising, or no GPUs), the produced snapshot carries GPU = 0, and
for any GPU threshold in [0, 100] the alerter never fires a GPU alert on
that snapshot, whatever the time and cooldown state. -/
theorem C7_null_gpu_never_fires (cfg : AlertConfig) (env : GpuEnv)
    (henv : env = GpuEnv.unavailable ∨ env = GpuEnv.raises ∨ env = GpuEnv.gpus [])
    (h0 : 0 ≤ cfg.thresholds Metric.gpu) (_h100 : cfg.thresholds Metric.gpu ≤ 100)
    (now : ℚ) (cd : Metric → Option ℚ) (c r cpuv ramv gpuv : ℚ)
    (hsnap : get_system_metrics (Except.ok c) (Except.ok r) env
      = some (cpuv, ramv, gpuv)) :
    Metric.gpu ∉ (check_thresholds cfg now cd cpuv ramv gpuv).1 := by
  have hgpu0 : gpuv = 0 := by
    have husage : (get_gpu_usage env).1 = 0 := by
      rcases henv with h | h | h <;> subst h <;> rfl
    have : get_system_metrics (Except.ok c) (Except.ok r) env
        = some (clamp c, clamp r, clamp (get_gpu_usage env).1) := rfl
    rw [this] at hsnap
    have := (Option.some.injEq _ _).mp hsnap
    have hg : gpuv = clamp (get_gpu_usage env).1 := by
      have h3 := congrArg (fun p : ℚ × ℚ × ℚ => p.2.2) this
      simpa using h3.symm
    rw [hg, husage]
    rfl
  rw [mem_check_thresholds_fst]
  intro hcon
  rw [hgpu0] at hcon
  exact absurd hcon.1 (by simpa [valueOf] using h0)

/-- Witness for C7: GPUtil absent, thresholds 80, CPU and RAM read 50;
no GPU alert fires. -/
theorem C7_null_gpu_never_fires_witness :
    Metric.gpu ∉ (check_thresholds defaultAlertConfig 10000 initialCooldown
      50 50 0).1 :=
  C7_null_gpu_never_fires defaultAlertConfig GpuEnv.unavailable (Or.inl rfl)
    (by norm_num [defaultAlertConfig]) (by norm_num [defaultAlertConfig])
    10000 initialCooldown 50 50 50 50 0 rfl


/-! ### Monitor loop: error counter and adaptive interval
(`update_stats`, src/monitor.py:1347-1441) -/

/-- The mutable loop state relevant to backoff: `self.update_interval`
and the local `error_count`. The loop constants are `max_errors = 3`,
`max_update_interval = 2.0` (src/monitor.py:1352-1355). -/
structure LoopState where
  update_interval : ℚ
  error_count : ℕ
  deriving Repr, DecidableEq

/-- Outcome of one iteration of the `while self.running` body:

* `snapshotNone` — `_get_system_metrics()` returned `None`
  (src/monitor.py:1411-1412): the `if metrics:` block is skipped and
  nothing changes;
* `storeOk` — the snapshot was obtained and stored;
* `storeFail` — an exception while storing (inner `except`,
  src/monitor.py:1428-1430): `error_count += 1`, no backoff check;
* `bodyRaise` — an exception escaping the loop body (outer `except`,
  src/monitor.py:1434-1441): `error_count += 1` and, when it reaches
  `max_errors = 3`, `update_interval = min(2.0, update_interval * 1.5)`
  and `error_count = 0`. -/
inductive LoopEvent where
  | snapshotNone
  | storeOk
  | storeFail
  | bodyRaise
  deriving Repr, DecidableEq

/-- One iteration of `update_stats`'s while body, restricted to the
backoff state. -/
def update_stats_step (s : LoopState) : LoopEvent → LoopState
  | LoopEvent.snapshotNone => s
  | LoopEvent.storeOk => s
  | LoopEvent.storeFail => { s with error_count := s.error_count + 1 }
  | LoopEvent.bodyRaise =>
      let ec := s.error_count + 1
      if ec ≥ 3 then
        { update_interval := min 2 (s.update_interval * 1.5), error_count := 0 }
      else
        { s with error_count := ec }

/-- Run the loop over a sequence of iteration outcomes. -/
def runLoop (s : LoopState) (evs : List LoopEvent) : LoopState :=
  evs.foldl update_stats_step s

/-- The loop state set up by `_initialize_metrics`
(src/monitor.py:801): `update_interval = max(0.5, configured)`;
`error_count` starts at 0 (src/monitor.py:1352). -/
def initLoopState (cfgInterval : ℚ) : LoopState :=
  { update_interval := max 0.5 cfgInterval, error_count := 0 }

/-- C4 counterexample: three consecutive sampling failures
(`_get_system_metrics()` returning `None` three times in a row) leave
the loop state completely unchanged — the interval stays 1.0 instead of
being multiplied by 1.5, because a `None` snapshot merely skips the
`if metrics:` block and never touches the error counter. -/
theorem C4_sampling_failures_counterexample :
    runLoop { update_interval := 1, error_count := 0 }
      [LoopEvent.snapshotNone, LoopEvent.snapshotNone, LoopEvent.snapshotNone]
      = { update_interval := 1, error_count := 0 } := by
  rfl

/-- C4 (amended): a `None` snapshot changes nothing (sampling failures
are not counted); a successful iteration also changes nothing — in
particular it does NOT reset the error counter; a storage exception
increments the counter without any backoff check; only exceptions
reaching the outer handler drive backoff: the third such exception
(consecutive or not — successes in between do not reset the count)
multiplies the interval by 1.5 capped at 2.0 and resets the counter. -/
theorem C4_backoff_behaviour :
    (∀ s : LoopState, update_stats_step s LoopEvent.snapshotNone = s) ∧
    (∀ s : LoopState, update_stats_step s LoopEvent.storeOk = s) ∧
    (∀ s : LoopState, update_stats_step s LoopEvent.storeFail
      = { s with error_count := s.error_count + 1 }) ∧
    (∀ i : ℚ, runLoop { update_interval := i, error_count := 0 }
      [LoopEvent.bodyRaise, LoopEvent.bodyRaise, LoopEvent.bodyRaise]
      = { update_interval := min 2 (i * 1.5), error_count := 0 }) ∧
    (∀ i : ℚ, runLoop { update_interval := i, error_count := 0 }
      [LoopEvent.bodyRaise, LoopEvent.storeOk, LoopEvent.bodyRaise,
        LoopEvent.storeOk, LoopEvent.bodyRaise]
      = { update_interval := min 2 (i * 1.5), error_count := 0 }) :=
  ⟨fun _ => rfl, fun _ => rfl, fun _ => rfl, fun _ => rfl, fun _ => rfl⟩

/-- C5 counterexample: the configured interval 3.0 lies in the allowed
0.1-5.0 range, yet immediately after initialization the loop interval is
`max(0.5, 3.0) = 3.0`, above the claimed 2.0 ceiling — initialization
applies no ceiling. -/
theorem C5_ceiling_counterexample :
    (0.1 : ℚ) ≤ 3 ∧ (3 : ℚ) ≤ 5 ∧
    (initLoopState 3).update_interval = 3 ∧
    ¬ (initLoopState 3).update_interval ≤ 2 := by
  have h3 : (initLoopState 3).update_interval = 3 := by
    show max (0.5 : ℚ) 3 = 3
    exact max_eq_right (by norm_num)
  refine ⟨by norm_num, by norm_num, h3, ?_⟩
  rw [h3]
  norm_num

theorem runLoop_interval_inv (cfg : ℚ) (s : LoopState)
    (h : 0.5 ≤ s.update_interval ∧ s.update_interval ≤ max 2 cfg)
    (evs : List LoopEvent) :
    0.5 ≤ (runLoop s evs).update_interval ∧
      (runLoop s evs).update_interval ≤ max 2 cfg := by
  induction evs generalizing s with
  | nil => exact h
  | cons e rest ih =>
    show 0.5 ≤ (runLoop (update_stats_step s e) rest).update_interval ∧ _
    apply ih
    cases e with
    | snapshotNone => exact h
    | storeOk => exact h
    | storeFail => exact h
    | bodyRaise =>
      have hstep : update_stats_step s LoopEvent.bodyRaise
          = if s.error_count + 1 ≥ 3 then
              { update_interval := min 2 (s.update_interval * 1.5), error_count := 0 }
            else { s with error_count := s.error_count + 1 } := rfl
      rw [hstep]
      split_ifs with hec
      · constructor
        · exact le_min (by norm_num) (by linarith [h.1])
        · exact le_trans (min_le_left 2 _) (le_max_left 2 cfg)
      · exact h

/-- C5 (amended): for every configured interval in [0.1, 5.0] and every
sequence of loop iteration outcomes, the interval stays within
[0.5, max(2.0, configured)]: initialization floors it at 0.5 (not 0.1)
and applies no ceiling, so a configured value above 2.0 persists until
the first backoff; every backoff result is at most 2.0 and at least
0.75. -/
theorem C5_interval_bounds (cfg : ℚ) (_hlo : (0.1 : ℚ) ≤ cfg) (_hhi : cfg ≤ 5)
    (evs : List LoopEvent) :
    0.5 ≤ (runLoop (initLoopState cfg) evs).update_interval ∧
      (runLoop (initLoopState cfg) evs).update_interval ≤ max 2 cfg := by
  apply runLoop_interval_inv
  constructor
  · exact le_max_left 0.5 cfg
  · exact max_le_max (by norm_num) (le_refl cfg)

/-- Witness for the amended C5: configured interval 1.0 and three
consecutive outer-handler failures; the interval stays in bounds. -/
theorem C5_interval_bounds_witness :
    (0.1 : ℚ) ≤ 1 ∧ (1 : ℚ) ≤ 5 ∧
    (0.5 ≤ (runLoop (initLoopState 1)
        [LoopEvent.bodyRaise, LoopEvent.bodyRaise, LoopEvent.bodyRaise]).update_interval ∧
      (runLoop (initLoopState 1)
        [LoopEvent.bodyRaise, LoopEvent.bodyRaise, LoopEvent.bodyRaise]).update_interval
        ≤ max 2 1) :=
  ⟨by norm_num, by norm_num,
    C5_interval_bounds 1 (by norm_num) (by norm_num)
      [LoopEvent.bodyRaise, LoopEvent.bodyRaise, LoopEvent.bodyRaise]⟩

/-! ### Configuration: `Settings.load_settings` (src/monitor.py:256-290) -/

/-- The nested `graph` sub-dictionary of the default settings. -/
structure GraphSettings where
  show_graph : Bool
  line_width : ℚ
  grid_alpha : ℚ
  deriving Repr, DecidableEq

/-- A full settings dictionary: the top-level keys of
`default_settings` (src/monitor.py:259-274). Thresholds are an
association list of metric-name keys, as in the JSON file. -/
structure SettingsDict where
  update_interval : ℚ
  max_data_points : ℕ
  show_notifications : Bool
  notification_grace_period : ℚ
  thresholds : List (String × ℚ)
  graph : GraphSettings
  deriving Repr, DecidableEq

/-- `self.default_settings` (src/monitor.py:259-274). -/
def default_settings : SettingsDict :=
  { update_interval := 1
    max_data_points := 60
    show_notifications := true
    notification_grace_period := 300
    thresholds := [("cpu", 80), ("ram", 80), ("gpu", 80)]
    graph := { show_graph := true, line_width := 2, grid_alpha := 0.2 } }

/-- The top-level keys present in a successfully parsed config file:
`none` means the key is absent from the file (so `{**defaults, **loaded}`
keeps the default), `some` means the file's value replaces the default
wholesale. -/
structure LoadedSettings where
  update_interval : Option ℚ
  max_data_points : Option ℕ
  show_notifications : Option Bool
  notification_grace_period : Option ℚ
  thresholds : Option (List (String × ℚ))
  graph : Option GraphSettings
  deriving Repr, DecidableEq

/-- State of the configuration file as `load_settings` encounters it:
absent, unreadable (open/read raises), malformed (json.load raises), or
parsed into a top-level dictionary. -/
inductive ConfigFile where
  | missing
  | unreadable
  | malformed
  | parsed (ls : LoadedSettings)
  deriving Repr, DecidableEq

/-- The threshold keys kept by the filter at src/monitor.py:282-286. -/
def allowedThresholdKeys : List String := ["cpu", "ram", "gpu"]

/-- `load_settings` (src/monitor.py:277-290): missing file or any
exception yields the defaults; a parsed file is merged shallowly over
the defaults (`{**self.default_settings, **loaded_settings}`), with a
present `thresholds` dict first filtered to the cpu/ram/gpu keys and
then replacing the default thresholds wholesale. -/
def load_settings : ConfigFile → SettingsDict
  | ConfigFile.missing => default_settings
  | ConfigFile.unreadable => default_settings
  | ConfigFile.malformed => default_settings
  | ConfigFile.parsed ls =>
      { update_interval := ls.update_interval.getD default_settings.update_interval
        max_data_points := ls.max_data_points.getD default_settings.max_data_points
        show_notifications :=
          ls.show_notifications.getD default_settings.show_notifications
        notification_grace_period :=
          ls.notification_grace_period.getD default_settings.notification_grace_period
        thresholds :=
          match ls.thresholds with
          | some t => t.filter fun kv => allowedThresholdKeys.contains kv.1
          | none => default_settings.thresholds
        graph := ls.graph.getD default_settings.graph }

/-- A threshold map is complete when each monitored metric has an
entry — `check_thresholds` looks up `self.thresholds[resource]` for all
three resources. -/
def completeThresholds (t : List (String × ℚ)) : Prop :=
  (t.lookup "cpu").isSome ∧ (t.lookup "ram").isSome ∧ (t.lookup "gpu").isSome

/-- C9 counterexample: a well-formed config file containing only
`{"thresholds": {"cpu": 90}}` loads without error, but the merged
configuration's thresholds consist of the cpu entry alone — the merge is
shallow, so the partial nested thresholds object replaced the defaults
wholesale and the ram (and gpu) thresholds are gone: the loop does not
start with a complete configuration. -/
theorem C9_partial_thresholds_counterexample :
    (load_settings (ConfigFile.parsed
        { update_interval := none, max_data_points := none,
          show_notifications := none, notification_grace_period := none,
          thresholds := some [("cpu", 90)], graph := none })).thresholds
      = [("cpu", 90)] ∧
    ¬ completeThresholds (load_settings (ConfigFile.parsed
        { update_interval := none, max_data_points := none,
          show_notifications := none, notification_grace_period := none,
          thresholds := some [("cpu", 90)], graph := none })).thresholds := by
  constructor
  · rfl
  · intro h
    have := h.2.1
    simp [load_settings, allowedThresholdKeys, List.lookup] at this

/-- C9 (amended): loading never raises — the missing, unreadable and
malformed cases all return the compiled-in defaults — and a parsed file
is overlaid shallowly: each top-level key present in the file replaces
the default, each absent key keeps the default, and a present
`thresholds` object (filtered to cpu/ram/gpu keys) replaces the default
thresholds wholesale, so the top level is always complete but the
thresholds map itself may be left partial. -/
theorem C9_load_settings_fallback :
    load_settings ConfigFile.missing = default_settings ∧
    load_settings ConfigFile.unreadable = default_settings ∧
    load_settings ConfigFile.malformed = default_settings ∧
    (∀ ls : LoadedSettings,
      (load_settings (ConfigFile.parsed ls)).update_interval
          = ls.update_interval.getD default_settings.update_interval ∧
      (load_settings (ConfigFile.parsed ls)).max_data_points
          = ls.max_data_points.getD default_settings.max_data_points ∧
      (load_settings (ConfigFile.parsed ls)).show_notifications
          = ls.show_notifications.getD default_settings.show_notifications ∧
      (load_settings (ConfigFile.parsed ls)).notification_grace_period
          = ls.notification_grace_period.getD
              default_settings.notification_grace_period ∧
      (load_settings (ConfigFile.parsed ls)).graph
          = ls.graph.getD default_settings.graph) ∧
    (∀ ls : LoadedSettings, ls.thresholds = none →
      (load_settings (ConfigFile.parsed ls)).thresholds
        = default_settings.thresholds) ∧
    (∀ (ls : LoadedSettings) (t : List (String × ℚ)), ls.thresholds = some t →
      (load_settings (ConfigFile.parsed ls)).thresholds
        = t.filter fun kv => allowedThresholdKeys.contains kv.1) := by
  refine ⟨rfl, rfl, rfl, fun ls => ⟨rfl, rfl, rfl, rfl, rfl⟩, ?_, ?_⟩
  · intro ls h
    simp [load_settings, h]
  · intro ls t h
    simp [load_settings, h]

/-- Witness for the amended C9 parsed-file clauses at a concrete file:
thresholds present and filtered, update_interval absent so defaulted. -/
theorem C9_load_settings_fallback_witness :
    (load_settings (ConfigFile.parsed
        { update_interval := none, max_data_points := some 30,
          show_notifications := none, notification_grace_period := none,
          thresholds := some [("cpu", 90), ("disk", 70)], graph := none })).thresholds
      = [("cpu", 90)] := by
  have h := C9_load_settings_fallback.2.2.2.2.2
    { update_interval := none, max_data_points := some 30,
      show_notifications := none, notification_grace_period := none,
      thresholds := some [("cpu", 90), ("disk", 70)], graph := none }
    [("cpu", 90), ("disk", 70)] rfl
  rw [h]
  rfl

end Monitor
